import Mathlib

/-
Verification of the retis OVS kernel-side BPF hooks against their
natural-language specification.

Shallow embedding of:
  - src/src/module/ovs/bpf/kernel_exec_tp.bpf.c  (ActionTraceHook)
  - src/src/module/ovs/bpf/kernel_enqueue.bpf.c  (UpcallHook)
  - src/src/core/probe/kernel/bpf/include/helpers.h (FeatureProbe)

Pointers become `Option` values, map lookups and event-section reservations
become boolean oracles carried in a context record, machine integers are
`Nat`/`Int` with explicit truncation.  Pieces of the repository that are not
among the given sources (`hash_skb`, the `DEFINE_HOOK` emission machinery,
`get_event_section`) are modelled from the spec and say so in their
doc comments.
-/

namespace Retis

/-- Truncation of a natural number to an unsigned 8-bit value, as performed by
storing into a C `u8` field. -/
def u8 (n : Nat) : Nat := n % 2 ^ 8

/-- Truncation of a natural number to an unsigned 32-bit value, as performed by
storing into a C `u32` field. -/
def u32 (n : Nat) : Nat := n % 2 ^ 32

/-- The C cast `(int) x` applied to an unsigned 64-bit register value: keep the
low 32 bits and reinterpret them as a signed 32-bit integer. -/
def toS32 (n : Nat) : Int :=
  if n % 2 ^ 32 < 2 ^ 31 then ((n % 2 ^ 32 : Nat) : Int)
  else ((n % 2 ^ 32 : Nat) : Int) - 2 ^ 32

/-- Little-endian read of the first four bytes of a byte sequence into a `u32`,
as performed by `bpf_probe_read_kernel(&output->port, sizeof(output->port),
nla_data(attr))` in `kernel_exec_tp.bpf.c`; absent bytes stay zero because the
reserved section is zero-initialized. -/
def le32 (bs : List Nat) : Nat :=
  u8 (bs.getD 0 0) + 2 ^ 8 * u8 (bs.getD 1 0) + 2 ^ 16 * u8 (bs.getD 2 0) +
    2 ^ 24 * u8 (bs.getD 3 0)

/-- Modelled from the spec: the bounded, implementation-chosen span of packet
bytes hashed by `PacketFingerprint` (`hash_skb` lives in `ovs_common.h`, which
is not among the given sources). -/
def OVS_HASH_SPAN : Nat := 64

/-- One step of the modelled packet hash: fold a byte into a 32-bit state. -/
def hash_bytes_step (h b : Nat) : Nat := (h * 16777619 + b % 2 ^ 8) % 2 ^ 32

/-- Modelled from the spec: `hash_skb` (`PacketFingerprint.hashPacket`), whose
body lives in `ovs_common.h` and is not among the given sources.  The spec
requires a deterministic 32-bit hash over a bounded span of packet bytes, with
no unbounded scanning; we model the packet content reachable from
`(buff, skb)` as a byte list and hash its first `OVS_HASH_SPAN` bytes. -/
def hash_skb (bytes : List Nat) : Nat :=
  (bytes.take OVS_HASH_SPAN).foldl hash_bytes_step 2166136261

/-- The `OVS_ACTION_ATTR_OUTPUT` constant of the kernel openvswitch uapi. -/
def OVS_ACTION_ATTR_OUTPUT : Nat := 1

/-- C struct `exec_event` of `kernel_exec_tp.bpf.c` (the ActionRecord):
`{u8 action; u32 recirc_id;}`. -/
structure exec_event where
  action : Nat
  recirc_id : Nat
deriving DecidableEq, Repr

/-- C struct `exec_track_event` of `kernel_exec_tp.bpf.c` (the TrackingRecord):
`{u32 queue_id;}`. -/
structure exec_track_event where
  queue_id : Nat
deriving DecidableEq, Repr

/-- C struct `exec_output` of `kernel_exec_tp.bpf.c` (the OutputRecord):
`{u32 port;}`. -/
structure exec_output where
  port : Nat
deriving DecidableEq, Repr

/-- C struct `upcall_enqueue_event` of `kernel_enqueue.bpf.c` (the
UpcallRecord): `{int ret; u8 cmd; u32 port;}`. -/
structure upcall_enqueue_event where
  ret : Int
  cmd : Nat
  port : Nat
deriving DecidableEq, Repr

/-- The `struct sw_flow_key` fields the hook reads: `recirc_id` via
`BPF_CORE_READ(key, recirc_id)`. -/
structure sw_flow_key where
  recirc_id : Nat
deriving DecidableEq, Repr

/-- The netlink attribute as the hook sees it: its (already masked) type tag
`nla_type(attr)` and its payload bytes starting at `nla_data(attr)`. -/
structure nlattr where
  nla_type : Nat
  payload : List Nat
deriving DecidableEq, Repr

/-- The `struct dp_upcall_info` fields read by the enqueue hook:
`BPF_CORE_READ(upcall, portid)` and `BPF_CORE_READ(upcall, cmd)`. -/
structure dp_upcall_info where
  portid : Nat
  cmd : Nat
deriving DecidableEq, Repr

/-- Environment of one `kernel_exec_tp` firing.  Pointers read from registers
are `Option` values (`none` is a NULL pointer); kernel-map lookups and
event-section reservations are boolean oracles, per the EventAssembler
contract of the spec (`get_event_section` is not among the given sources).
`filters_pass` abstracts the bit test `ctx->filters_ret & RETIS_F_PACKET_PASS`,
the externally supplied coarse packet-matching predicate. -/
structure ExecCtx where
  /-- `ctx->regs.reg[2]`, the flow key pointer. -/
  key : Option sw_flow_key
  /-- `ctx->regs.reg[3]`, the raw action-attribute pointer. -/
  attr : Option nlattr
  /-- Whether `bpf_map_lookup_elem(&inflight_exec_cmd, &tid)` hits for the
  current task (the InFlightTracker lookup). -/
  inflight : Bool
  /-- `retis_get_sk_buff(ctx)`: the packet, as its byte content, when a
  readable packet reference exists at the call site. -/
  skb : Option (List Nat)
  /-- Whether `bpf_map_lookup_elem(&packet_buffers, &zero)` succeeds. -/
  buff : Bool
  /-- Whether `get_event_section(event, COLLECTOR_OVS, OVS_DP_ACTION, ...)`
  succeeds. -/
  res_action : Bool
  /-- Whether `get_event_section(event, COLLECTOR_OVS, OVS_DP_ACTION_TRACK,
  ...)` succeeds. -/
  res_track : Bool
  /-- Whether `get_event_section(event, COLLECTOR_OVS, OVS_DP_ACTION_OUTPUT,
  ...)` succeeds. -/
  res_output : Bool
  /-- The coarse packet-matching predicate:
  `ctx->filters_ret & RETIS_F_PACKET_PASS` is nonzero. -/
  filters_pass : Bool
deriving DecidableEq, Repr

/-- `handle_tracking` of `kernel_exec_tp.bpf.c`, returning the C `s32` return
value together with the TrackingRecord section it populated, if any:
`0` when the inflight lookup misses, `-1` when the packet reference, the
packet buffer or the section reservation is unavailable, `1` on success. -/
def handle_tracking (c : ExecCtx) : Int × Option exec_track_event :=
  if c.inflight = false then (0, none)
  else
    match c.skb with
    | none => (-1, none)
    | some skb =>
      if c.buff = false then (-1, none)
      else if c.res_track = false then (-1, none)
      else (1, some ⟨hash_skb skb⟩)

/-- The records of one kept ActionTraceHook firing: the mandatory ActionRecord
plus its optional TrackingRecord and OutputRecord attachments. -/
structure ExecOut where
  exec : exec_event
  track : Option exec_track_event
  output : Option exec_output
deriving DecidableEq, Repr

/-- The `DEFINE_HOOK_RAW` body of `kernel_exec_tp.bpf.c` (the
ActionTraceHook): `none` when the firing emits nothing (missing input,
mandatory-reservation failure, or the discard at the
`!handle_tracking && !(ctx->filters_ret & RETIS_F_PACKET_PASS)` test),
otherwise the records that reach consumers.  The `DEFINE_HOOK_RAW` macro and
the commit machinery are not among the given sources; per the spec, a
discarded firing lets no record reach consumers (staging/commit), and a
failed reservation of an optional section only omits that section. -/
def kernel_exec_tp (c : ExecCtx) : Option ExecOut :=
  match c.key with
  | none => none
  | some key =>
    match c.attr with
    | none => none
    | some attr =>
      if c.res_action = false then none
      else
        let exec : exec_event := ⟨u8 attr.nla_type, u32 key.recirc_id⟩
        let tr := handle_tracking c
        if tr.1 = 0 ∧ c.filters_pass = false then none
        else
          if exec.action = OVS_ACTION_ATTR_OUTPUT then
            if c.res_output = false then some ⟨exec, tr.2, none⟩
            else some ⟨exec, tr.2, some ⟨le32 attr.payload⟩⟩
          else some ⟨exec, tr.2, none⟩

/-- Environment of one `kernel_enqueue` firing: the enqueue-descriptor pointer
from `ctx->regs.reg[3]`, the reservation oracle for the UpcallRecord section,
and the `u64` return-value register `ctx->regs.ret` captured at kretprobe
exit. -/
structure UpcallCtx where
  upcall : Option dp_upcall_info
  res_enqueue : Bool
  regs_ret : Nat
deriving DecidableEq, Repr

/-- The `DEFINE_HOOK` body of `kernel_enqueue.bpf.c` (the UpcallHook): `none`
when nothing is emitted (NULL descriptor or mandatory-reservation failure),
otherwise the single UpcallRecord, with `port` and `cmd` copied from the
descriptor and `ret` the C cast `(int) ctx->regs.ret`. -/
def kernel_enqueue (c : UpcallCtx) : Option upcall_enqueue_event :=
  match c.upcall with
  | none => none
  | some u =>
    if c.res_enqueue = false then none
    else some ⟨toS32 c.regs_ret, u8 u.cmd, u32 u.portid⟩

/-- The trapped CPU state a kprobe sees: the instruction pointer
`PT_REGS_IP(ctx)`, a `u64`. -/
structure pt_regs where
  ip : Nat
deriving DecidableEq, Repr

/-- The kernel capabilities `kprobe_get_func_ip` consults: whether the
`bpf_get_func_ip` helper exists (a CO-RE capability query on the
`BPF_FUNC_get_func_ip___5_15_0` enumerator, resolved once at load time), and
the value that native primitive would return. -/
structure KernelEnv where
  has_bpf_get_func_ip : Bool
  bpf_get_func_ip : pt_regs → Nat

/-- `kprobe_get_func_ip` of `helpers.h`: delegate to the native
`bpf_get_func_ip` when available, otherwise compute `PT_REGS_IP(ctx) - 1`
in `u64` arithmetic. -/
def kprobe_get_func_ip (k : KernelEnv) (ctx : pt_regs) : Nat :=
  if k.has_bpf_get_func_ip = true then k.bpf_get_func_ip ctx
  else (ctx.ip + (2 ^ 64 - 1)) % 2 ^ 64

/-- Modelled from the spec: `FeatureProbe.getCallerAddress` as §4.1 words it —
return the native primitive result verbatim when the capability exists,
otherwise the trapped program counter minus one instruction byte (stated on
in-range counters; the wraparound at 0 is the `u64` refinement detail). -/
def spec_getCallerAddress (k : KernelEnv) (ctx : pt_regs) : Nat :=
  if k.has_bpf_get_func_ip = true then k.bpf_get_func_ip ctx
  else ctx.ip - 1

/-! Helper lemmas shared by the claim theorems. -/

/-- `handle_tracking` returns 0 exactly when the inflight lookup misses. -/
theorem handle_tracking_fst_zero_iff (c : ExecCtx) :
    (handle_tracking c).1 = 0 ↔ c.inflight = false := by
  cases hinf : c.inflight <;> cases hs : c.skb <;>
    cases hb : c.buff <;> cases ht : c.res_track <;>
      simp [handle_tracking, hinf, hs, hb, ht]

/-- A TrackingRecord comes out of `handle_tracking` only when the inflight
lookup hits, the packet and the packet buffer are readable and the section
reservation succeeds; its `queue_id` is the packet hash. -/
theorem handle_tracking_snd_some (c : ExecCtx) (t : exec_track_event)
    (h : (handle_tracking c).2 = some t) :
    c.inflight = true ∧ c.buff = true ∧ c.res_track = true ∧
      ∃ skb, c.skb = some skb ∧ t = ⟨hash_skb skb⟩ := by
  cases hinf : c.inflight <;> cases hs : c.skb <;>
    cases hb : c.buff <;> cases ht : c.res_track <;>
      simp_all [handle_tracking]

/-- Inversion of a kept ActionTraceHook firing: the inputs were present, the
mandatory reservation succeeded, the ActionRecord fields come from the
attribute tag and the flow key, the TrackingRecord is whatever
`handle_tracking` attached, the OutputRecord can only be the attribute
payload read for an OUTPUT action, and the discard test did not fire. -/
theorem kernel_exec_tp_some_inv (c : ExecCtx) (out : ExecOut)
    (h : kernel_exec_tp c = some out) :
    ∃ k a, c.key = some k ∧ c.attr = some a ∧ c.res_action = true ∧
      out.exec = ⟨u8 a.nla_type, u32 k.recirc_id⟩ ∧
      out.track = (handle_tracking c).2 ∧
      (out.output = none ∨
        (out.exec.action = OVS_ACTION_ATTR_OUTPUT ∧ c.res_output = true ∧
          out.output = some ⟨le32 a.payload⟩)) ∧
      ¬((handle_tracking c).1 = 0 ∧ c.filters_pass = false) := by
  cases hk : c.key with
  | none => simp [kernel_exec_tp, hk] at h
  | some k =>
    cases ha : c.attr with
    | none => simp [kernel_exec_tp, hk, ha] at h
    | some a =>
      simp only [kernel_exec_tp, hk, ha] at h
      refine ⟨k, a, rfl, rfl, ?_⟩
      split at h
      · exact absurd h (by simp)
      · next hres =>
        split at h
        · exact absurd h (by simp)
        · next hkeep =>
          refine ⟨by revert hres; cases c.res_action <;> simp, ?_⟩
          split at h
          · next hact =>
            split at h
            · cases h
              exact ⟨rfl, rfl, Or.inl rfl, hkeep⟩
            · next hro =>
              cases h
              exact ⟨rfl, rfl,
                Or.inr ⟨hact, by revert hro; cases c.res_output <;> simp, rfl⟩, hkeep⟩
          · cases h
            exact ⟨rfl, rfl, Or.inl rfl, hkeep⟩

/-! Claim theorems. -/

/-- Claim C1: for every ActionTraceHook firing in which the inflight lookup
misses (`isInFlight` false) and the coarse packet-matching predicate is
false, the firing is discarded and zero records are emitted — no
ActionRecord, TrackingRecord or OutputRecord reaches consumers. -/
theorem C1_not_inflight_not_matched_emits_nothing (c : ExecCtx)
    (hinf : c.inflight = false) (hmatch : c.filters_pass = false) :
    kernel_exec_tp c = none := by
  cases hk : c.key <;> cases ha : c.attr <;>
    simp [kernel_exec_tp, handle_tracking, hk, ha, hinf, hmatch]

/-- Claim C1 witness: a concrete OUTPUT-action firing with the inflight
lookup missing and the predicate false emits nothing. -/
theorem C1_witness :
    kernel_exec_tp ⟨some ⟨9⟩, some ⟨1, [5, 0, 0, 0]⟩, false, some [1, 2, 3],
      true, true, true, true, false⟩ = none :=
  C1_not_inflight_not_matched_emits_nothing _ rfl rfl

/-- Claim C2 counterexample: with `isInFlight` true but no readable packet
reference (`retis_get_sk_buff` returns NULL) and the coarse predicate false,
the claim says the firing is discarded with no record reaching consumers; in
the code `handle_tracking` returns `-1`, which is truthy in C, so the
`!handle_tracking(...)` discard test does not fire and the records are
emitted. -/
theorem C2_counterexample :
    kernel_exec_tp ⟨some ⟨9⟩, some ⟨1, [5, 0, 0, 0]⟩, true, none,
      true, true, true, true, false⟩ =
      some ⟨⟨1, 9⟩, none, some ⟨5⟩⟩ := by decide

/-- Claim C2 (amended): for every ActionTraceHook firing that reaches the
keep/discard decision with `isInFlight` true but a failing packet fingerprint
(no readable packet reference), the firing is marked ineligible — no
TrackingRecord is attached — but it is kept and its records are emitted
regardless of the coarse packet-matching predicate. -/
theorem C2_fingerprint_failure_kept_untracked (c : ExecCtx)
    (k : sw_flow_key) (a : nlattr)
    (hk : c.key = some k) (ha : c.attr = some a) (hres : c.res_action = true)
    (hinf : c.inflight = true) (hskb : c.skb = none) :
    ∃ out, kernel_exec_tp c = some out ∧ out.track = none := by
  have htr : handle_tracking c = (-1, none) := by simp [handle_tracking, hinf, hskb]
  by_cases hact : u8 a.nla_type = OVS_ACTION_ATTR_OUTPUT
  · cases ho : c.res_output
    · exact ⟨⟨⟨u8 a.nla_type, u32 k.recirc_id⟩, none, none⟩,
        by norm_num [kernel_exec_tp, hk, ha, hres, htr, hact, ho], rfl⟩
    · exact ⟨⟨⟨u8 a.nla_type, u32 k.recirc_id⟩, none, some ⟨le32 a.payload⟩⟩,
        by norm_num [kernel_exec_tp, hk, ha, hres, htr, hact, ho], rfl⟩
  · exact ⟨⟨⟨u8 a.nla_type, u32 k.recirc_id⟩, none, none⟩,
      by norm_num [kernel_exec_tp, hk, ha, hres, htr, hact], rfl⟩

/-- Claim C2 witness: a concrete ineligible firing (inflight hit, packet
unreadable, predicate false) that is kept without a TrackingRecord. -/
theorem C2_witness :
    ∃ out, kernel_exec_tp ⟨some ⟨4⟩, some ⟨2, []⟩, true, none,
      true, true, true, true, false⟩ = some out ∧ out.track = none :=
  C2_fingerprint_failure_kept_untracked _ ⟨4⟩ ⟨2, []⟩ rfl rfl rfl rfl rfl

/-- Claim C8: a missing required input pointer — the enqueue descriptor for
the UpcallHook, the flow key or the action attribute for the ActionTraceHook
— silently aborts the firing: nothing is emitted and no error propagates. -/
theorem C8_missing_input_silently_aborts (u : UpcallCtx) (e : ExecCtx) :
    (u.upcall = none → kernel_enqueue u = none) ∧
    (e.key = none → kernel_exec_tp e = none) ∧
    (e.attr = none → kernel_exec_tp e = none) := by
  refine ⟨fun h => by simp [kernel_enqueue, h], fun h => by simp [kernel_exec_tp, h],
    fun h => ?_⟩
  cases hk : e.key <;> simp [kernel_exec_tp, h, hk]

/-- Claim C8 witness: concrete firings with a NULL descriptor, a NULL flow
key and a NULL attribute all emit nothing. -/
theorem C8_witness :
    kernel_enqueue ⟨none, true, 5⟩ = none ∧
      kernel_exec_tp ⟨none, some ⟨1, []⟩, true, none, true, true, true, true, true⟩ = none ∧
      kernel_exec_tp ⟨some ⟨3⟩, none, true, none, true, true, true, true, true⟩ = none :=
  ⟨(C8_missing_input_silently_aborts ⟨none, true, 5⟩
      ⟨none, some ⟨1, []⟩, true, none, true, true, true, true, true⟩).1 rfl,
    (C8_missing_input_silently_aborts ⟨none, true, 5⟩
      ⟨none, some ⟨1, []⟩, true, none, true, true, true, true, true⟩).2.1 rfl,
    (C8_missing_input_silently_aborts ⟨none, true, 5⟩
      ⟨some ⟨3⟩, none, true, none, true, true, true, true, true⟩).2.2 rfl⟩

/-- Claim C9: every ActionTraceHook firing that reaches the keep/discard
decision with the inflight lookup hitting is kept — whatever the packet
readability, packet-buffer availability, TrackingRecord reservation outcome
or coarse packet-matching predicate; the predicate is only consulted when
the inflight lookup misses. -/
theorem C9_inflight_always_kept (c : ExecCtx) (k : sw_flow_key) (a : nlattr)
    (hk : c.key = some k) (ha : c.attr = some a) (hres : c.res_action = true)
    (hinf : c.inflight = true) :
    ∃ out, kernel_exec_tp c = some out := by
  cases hs : c.skb <;> cases hb : c.buff <;> cases ht : c.res_track <;>
    cases ho : c.res_output <;>
      simp [kernel_exec_tp, handle_tracking, hk, ha, hres, hinf, hs, hb, ht, ho] <;>
        split <;> simp

/-- Claim C9 witness: a concrete inflight firing with unreadable packet,
failed TrackingRecord reservation and false predicate is still kept. -/
theorem C9_witness :
    ∃ out, kernel_exec_tp ⟨some ⟨4⟩, some ⟨3, []⟩, true, none,
      false, true, false, false, false⟩ = some out :=
  C9_inflight_always_kept _ ⟨4⟩ ⟨3, []⟩ rfl rfl rfl rfl

/-- Claim C3 counterexample: a firing whose enqueue-descriptor pointer is
non-null but whose mandatory UpcallRecord reservation fails emits no record,
so it is not the case that every non-null-descriptor firing emits exactly
one UpcallRecord. -/
theorem C3_counterexample :
    kernel_enqueue ⟨some ⟨7, 3⟩, false, 0⟩ = none := by decide

/-- Claim C3 (amended): for every UpcallHook firing where the descriptor
pointer is non-null and the mandatory UpcallRecord reservation succeeds,
exactly one UpcallRecord is emitted whose command, port and return-code
fields equal, verbatim, the descriptor's command tag, the descriptor's
destination port, and the return value captured at probe exit as the hook
stores it (the `(int) ctx->regs.ret` cast, `toS32`); the bounds on the
descriptor fields restate their declared `u8`/`u32` types. -/
theorem C3_upcall_record_verbatim (c : UpcallCtx) (u : dp_upcall_info)
    (hu : c.upcall = some u) (hres : c.res_enqueue = true)
    (hcmd : u.cmd < 2 ^ 8) (hport : u.portid < 2 ^ 32) :
    kernel_enqueue c = some ⟨toS32 c.regs_ret, u.cmd, u.portid⟩ := by
  simp [kernel_enqueue, hu, hres, u8, u32, Nat.mod_eq_of_lt hcmd,
    Nat.mod_eq_of_lt hport]
  exact ⟨hcmd, hport⟩

/-- Claim C3 witness, the spec scenario: descriptor `{cmd=3, port=7}` with
captured return value 0 yields `UpcallRecord{cmd:3, port:7, ret:0}`. -/
theorem C3_witness :
    kernel_enqueue ⟨some ⟨7, 3⟩, true, 0⟩ = some ⟨0, 3, 7⟩ := by
  have h := C3_upcall_record_verbatim ⟨some ⟨7, 3⟩, true, 0⟩ ⟨7, 3⟩ rfl rfl
    (by norm_num) (by norm_num)
  exact h.trans (by decide)

/-- Claim C4: `kprobe_get_func_ip` is total and returns the native
`bpf_get_func_ip` result verbatim when the capability exists; otherwise it
returns the trapped program counter minus one instruction byte (the spec
refinement, stated on in-range counters) — in `u64` arithmetic, the counter
plus `2 ^ 64 - 1` modulo `2 ^ 64`. -/
theorem C4_get_func_ip_resolution (k : KernelEnv) (ctx : pt_regs) :
    (k.has_bpf_get_func_ip = true →
      kprobe_get_func_ip k ctx = k.bpf_get_func_ip ctx) ∧
    (k.has_bpf_get_func_ip = false →
      kprobe_get_func_ip k ctx = (ctx.ip + (2 ^ 64 - 1)) % 2 ^ 64) ∧
    (k.has_bpf_get_func_ip = false → 1 ≤ ctx.ip → ctx.ip < 2 ^ 64 →
      kprobe_get_func_ip k ctx = spec_getCallerAddress k ctx) := by
  refine ⟨fun h => by simp [kprobe_get_func_ip, h],
    fun h => by simp [kprobe_get_func_ip, h], fun h h1 h2 => ?_⟩
  simp only [kprobe_get_func_ip, spec_getCallerAddress, h, Bool.false_eq_true,
    if_false]
  omega

/-- Claim C4 witness: with the capability present the native result (here
1000) is returned verbatim; without it, program counter 77 yields 76. -/
theorem C4_witness :
    kprobe_get_func_ip ⟨true, fun _ => 1000⟩ ⟨77⟩ = 1000 ∧
      kprobe_get_func_ip ⟨false, fun _ => 1000⟩ ⟨77⟩ = 77 - 1 := by
  constructor
  · exact (C4_get_func_ip_resolution ⟨true, fun _ => 1000⟩ ⟨77⟩).1 rfl
  · have h := (C4_get_func_ip_resolution ⟨false, fun _ => 1000⟩ ⟨77⟩).2.2 rfl
      (by norm_num) (by norm_num)
    simpa [spec_getCallerAddress] using h

/-- Claim C5: a TrackingRecord is created only when correlation succeeds —
the inflight lookup hits, the packet and packet buffer are readable, the
TrackingRecord reservation succeeds — its `queue_id` is the packet
fingerprint, and it always accompanies an ActionRecord reserved earlier in
the same firing (the mandatory reservation succeeded and the ActionRecord is
part of the same emitted output). -/
theorem C5_tracking_only_with_correlation (c : ExecCtx) (out : ExecOut)
    (t : exec_track_event) (hout : kernel_exec_tp c = some out)
    (ht : out.track = some t) :
    c.inflight = true ∧ c.buff = true ∧ c.res_track = true ∧
      c.res_action = true ∧
      ∃ skb, c.skb = some skb ∧ t.queue_id = hash_skb skb := by
  obtain ⟨k, a, hk, ha, hres, hexec, htrack, houtput, hkeep⟩ :=
    kernel_exec_tp_some_inv c out hout
  rw [htrack] at ht
  obtain ⟨hinf, hb, hrt, skb, hs, htq⟩ := handle_tracking_snd_some c t ht
  exact ⟨hinf, hb, hrt, hres, skb, hs, by rw [htq]⟩

/-- Claim C5 witness: a concrete firing that emits a TrackingRecord, whose
`queue_id` is the fingerprint of the packet present at the call site. -/
theorem C5_witness :
    ∃ skb, (⟨some ⟨9⟩, some ⟨2, []⟩, true, some [], true, true, true, true,
      true⟩ : ExecCtx).skb = some skb ∧
      (⟨2166136261⟩ : exec_track_event).queue_id = hash_skb skb :=
  (C5_tracking_only_with_correlation
    ⟨some ⟨9⟩, some ⟨2, []⟩, true, some [], true, true, true, true, true⟩
    ⟨⟨2, 9⟩, some ⟨2166136261⟩, none⟩ ⟨2166136261⟩ (by decide) rfl).2.2.2.2

/-- Claim C6: an OutputRecord is emitted only for kept firings whose action
tag is `OVS_ACTION_ATTR_OUTPUT`; a kept firing with any other action tag
never carries one, and an emitted OutputRecord always accompanies an
ActionRecord (the mandatory reservation succeeded and the ActionRecord is
part of the same emitted output). -/
theorem C6_output_only_for_output_action (c : ExecCtx) (out : ExecOut)
    (hout : kernel_exec_tp c = some out) (ho : out.output.isSome = true) :
    out.exec.action = OVS_ACTION_ATTR_OUTPUT ∧ c.res_action = true := by
  obtain ⟨k, a, hk, ha, hres, hexec, htrack, houtput, hkeep⟩ :=
    kernel_exec_tp_some_inv c out hout
  rcases houtput with h | ⟨hact, _, _⟩
  · rw [h] at ho
    simp at ho
  · exact ⟨hact, hres⟩

/-- Claim C6 witness: a concrete kept firing carrying an OutputRecord has
action tag `OVS_ACTION_ATTR_OUTPUT` and a successfully reserved
ActionRecord. -/
theorem C6_witness :
    (⟨⟨1, 9⟩, none, some ⟨5⟩⟩ : ExecOut).exec.action = OVS_ACTION_ATTR_OUTPUT ∧
      (⟨some ⟨9⟩, some ⟨1, [5, 0, 0, 0]⟩, false, none, true, true, true, true,
        true⟩ : ExecCtx).res_action = true :=
  C6_output_only_for_output_action
    ⟨some ⟨9⟩, some ⟨1, [5, 0, 0, 0]⟩, false, none, true, true, true, true, true⟩
    ⟨⟨1, 9⟩, none, some ⟨5⟩⟩ (by decide) rfl

/-- Claim C7: the packet fingerprint is deterministic over its bounded
hashed span — two packets agreeing on the first `OVS_HASH_SPAN` bytes hash
to the same 32-bit fingerprint — and the fingerprint fits in 32 bits. -/
theorem C7_hash_deterministic_over_span (b1 b2 : List Nat)
    (h : b1.take OVS_HASH_SPAN = b2.take OVS_HASH_SPAN) :
    hash_skb b1 = hash_skb b2 ∧ hash_skb b1 < 2 ^ 32 := by
  have hfold : ∀ (l : List Nat) (h0 : Nat), h0 < 2 ^ 32 →
      l.foldl hash_bytes_step h0 < 2 ^ 32 := by
    intro l
    induction l with
    | nil => intro h0 hh; simpa using hh
    | cons x xs ih =>
      intro h0 hh
      exact ih _ (Nat.mod_lt _ (by norm_num))
  constructor
  · unfold hash_skb
    rw [h]
  · exact hfold _ _ (by norm_num)

/-- Claim C7 witness: two packets that differ only past the hashed span
(byte 65) receive the same in-range fingerprint. -/
theorem C7_witness :
    hash_skb (List.replicate 65 0) = hash_skb (List.replicate 64 0 ++ [7]) ∧
      hash_skb (List.replicate 65 0) < 2 ^ 32 :=
  C7_hash_deterministic_over_span _ _ (by decide)

/-- Bounds and low-32-bit congruence of the C cast `(int) x`. -/
theorem toS32_bounds (n : Nat) :
    toS32 n % (2 ^ 32 : Int) = ((n % 2 ^ 32 : Nat) : Int) ∧
      -(2 ^ 31) ≤ toS32 n ∧ toS32 n < 2 ^ 31 := by
  have h1 : n % 2 ^ 32 < 2 ^ 32 := Nat.mod_lt _ (by norm_num)
  have h2 : ((n % 2 ^ 32 : Nat) : Int) < 2 ^ 32 := by exact_mod_cast h1
  have h0 : (0 : Int) ≤ ((n % 2 ^ 32 : Nat) : Int) := Int.natCast_nonneg _
  unfold toS32
  split
  · next h =>
    have hlt : ((n % 2 ^ 32 : Nat) : Int) < 2 ^ 31 := by exact_mod_cast h
    exact ⟨Int.emod_eq_of_lt h0 h2, by omega, hlt⟩
  · next h =>
    have hge : (2 ^ 31 : Int) ≤ ((n % 2 ^ 32 : Nat) : Int) := by
      have := Nat.le_of_not_lt h
      exact_mod_cast this
    exact ⟨by omega, by omega, by omega⟩

/-- Claim C10: every emitted UpcallRecord's return code is the captured
64-bit return register truncated to its low 32 bits and reinterpreted as a
signed 32-bit integer — congruent to the register modulo `2 ^ 32` and lying
in the signed 32-bit range — not the full register value. -/
theorem C10_return_code_truncated (c : UpcallCtx) (u : dp_upcall_info)
    (hu : c.upcall = some u) (hres : c.res_enqueue = true) :
    ∃ rec, kernel_enqueue c = some rec ∧
      rec.ret % (2 ^ 32 : Int) = ((c.regs_ret % 2 ^ 32 : Nat) : Int) ∧
      -(2 ^ 31) ≤ rec.ret ∧ rec.ret < 2 ^ 31 := by
  refine ⟨⟨toS32 c.regs_ret, u8 u.cmd, u32 u.portid⟩,
    by simp [kernel_enqueue, hu, hres], ?_, ?_, ?_⟩
  · exact (toS32_bounds c.regs_ret).1
  · exact (toS32_bounds c.regs_ret).2.1
  · exact (toS32_bounds c.regs_ret).2.2

/-- Claim C10 witness: a captured register value of `2 ^ 32` produces a
return code congruent to 0, inside the signed 32-bit range — not the full
register value. -/
theorem C10_witness :
    ∃ rec, kernel_enqueue ⟨some ⟨7, 3⟩, true, 2 ^ 32⟩ = some rec ∧
      rec.ret % (2 ^ 32 : Int) = (((2 ^ 32 : Nat) % 2 ^ 32 : Nat) : Int) ∧
      -(2 ^ 31) ≤ rec.ret ∧ rec.ret < 2 ^ 31 :=
  C10_return_code_truncated ⟨some ⟨7, 3⟩, true, 2 ^ 32⟩ ⟨7, 3⟩ rfl rfl

end Retis
